import Mathlib

/-!
Verification of `src/generar_reporte.py` (monitor-arecibo).

The Python script is a single linear batch job: it fetches weather alerts
and a forecast, classifies flood/rain/marine risk with fixed threshold
rules, renders a PDF report, copies it to a "latest" path and writes a
JSON summary.  Below, each relevant Python function and the decision
logic inside `main` is translated into an executable Lean definition over
`List Char` text, and the specification claims are settled as theorems.
-/

namespace Arecibo

/-- Text is modelled as a list of characters (Python `str`). -/
abbrev Text := List Char

/-- Boolean substring test: does `pat` occur (contiguously) in `s`?
Mirrors Python's `pat in s`. -/
def occursIn (pat : Text) : Text → Bool
  | [] => pat.isEmpty
  | c :: cs => pat.isPrefixOf (c :: cs) || occursIn pat cs

/-- Fuel-driven worker for `replaceAll`; replaces non-overlapping
occurrences of `pat` left to right, like Python's `str.replace`
(for non-empty `pat`). -/
def replaceAllAux (pat rep : Text) : Nat → Text → Text
  | 0, s => s
  | _ + 1, [] => []
  | fuel + 1, c :: cs =>
    if pat.isPrefixOf (c :: cs) then
      rep ++ replaceAllAux pat rep fuel ((c :: cs).drop pat.length)
    else
      c :: replaceAllAux pat rep fuel cs

/-- Python `s.replace(pat, rep)` for non-empty `pat`. -/
def replaceAll (pat rep s : Text) : Text :=
  replaceAllAux pat rep s.length s

/-- The ordered NWS English → Spanish phrase table `TRADUCCIONES`. -/
def TRADUCCIONES : List (Text × Text) :=
  [ ("Mostly Sunny".data, "Mayormente Soleado".data),
    ("Partly Sunny".data, "Parcialmente Soleado".data),
    ("Mostly Clear".data, "Mayormente Despejado".data),
    ("Partly Cloudy".data, "Parcialmente Nublado".data),
    ("Mostly Cloudy".data, "Mayormente Nublado".data),
    ("Chance Showers".data, "Posibilidad de Aguaceros".data),
    ("Chance Rain".data, "Posibilidad de Lluvia".data),
    ("Chance Thunderstorms".data, "Posibilidad de Tormentas".data),
    ("Showers".data, "Aguaceros".data),
    ("Thunderstorms".data, "Tormentas Eléctricas".data),
    ("Light Rain".data, "Lluvia Ligera".data),
    ("Heavy Rain".data, "Lluvia Intensa".data),
    ("Rain".data, "Lluvia".data),
    ("Sunny".data, "Soleado".data),
    ("Clear".data, "Despejado".data),
    ("Cloudy".data, "Nublado".data),
    ("Overcast".data, "Cubierto".data),
    ("Fog".data, "Neblina".data),
    ("Haze".data, "Bruma".data),
    ("Windy".data, "Vientos Fuertes".data),
    ("Breezy".data, "Ventoso".data),
    ("Tropical Storm".data, "Tormenta Tropical".data),
    ("Hurricane".data, "Huracán".data),
    ("Likely".data, "Probable".data) ]

/-- Python `traducir(texto)`: returns `""` on falsy input, otherwise
applies every table entry in order with `str.replace`. -/
def traducir (texto : Text) : Text :=
  if texto.isEmpty then []
  else TRADUCCIONES.foldl (fun t p => replaceAll p.1 p.2 t) texto

/-! ### Colour constants (hex strings from the script header) -/

def NAVY : Text := "#0a1628".data
def DEEP : Text := "#0d1f3c".data
def OCEAN : Text := "#0e3a6e".data
def CYAN : Text := "#00b4d8".data
def TEAL : Text := "#00e5d4".data
def DANGER : Text := "#e63946".data
def WARN : Text := "#ff6b35".data
def GOLD : Text := "#ffd166".data
def SAFE : Text := "#06d6a0".data
def LIGHT : Text := "#e8f4fd".data
def MUTED : Text := "#7fa8cc".data

/-! ### `fetch_json` -/

/-- The kinds of exception `urllib.request.urlopen` / `json.loads` can
raise inside `fetch_json`'s `try` block (all are `Exception` subclasses,
so all are caught by `except Exception`). -/
inductive FetchError where
  | transport (msg : Text)
  | timeout
  | httpStatus (code : Nat)
  | decode
deriving DecidableEq

/-- Python `fetch_json(url)`.  The effect of performing the GET and JSON
decode is passed in as `r : Except FetchError α` (normal return or raised
exception); the function returns the parsed value, or on any exception
prints a warning line and returns `None`.  Result: (returned value,
printed log lines). -/
def fetch_json (α : Type) (url : Text) (r : Except FetchError α) :
    Option α × List Text :=
  match r with
  | .ok j => (some j, [])
  | .error _ => (none, ["  ⚠ No se pudo obtener ".data ++ url])

/-! ### Severity mappings -/

/-- Python `sev_color(sev)`: dict lookup with default `MUTED`. -/
def sev_color (sev : Text) : Text :=
  if sev = "Extreme".data then DANGER
  else if sev = "Severe".data then WARN
  else if sev = "Moderate".data then GOLD
  else if sev = "Minor".data then SAFE
  else MUTED

/-- Python `sev_es(sev)`: dict lookup with default `sev or "—"`
(the input itself when non-empty, the em-dash when falsy). -/
def sev_es (sev : Text) : Text :=
  if sev = "Extreme".data then "EXTREMO".data
  else if sev = "Severe".data then "SEVERO".data
  else if sev = "Moderate".data then "MODERADO".data
  else if sev = "Minor".data then "MENOR".data
  else if sev.isEmpty then "—".data else sev

/-! ### Data model

JSON payload fields actually read by `main`, as typed records.  `Option`
marks a field that may be absent (or JSON `null`) in the payload. -/

/-- `a["properties"]` of one alert feature. -/
structure AlertProps where
  event : Option Text := none
  severity : Option Text := none
  areaDesc : Option Text := none
  expires : Option Text := none
  description : Option Text := none
  headline : Option Text := none
deriving DecidableEq

/-- One element of `alerts_data["features"]`. -/
structure Alert where
  properties : AlertProps
deriving DecidableEq

/-- One forecast period.  `probabilityOfPrecipitation` is `none` when the
key is absent / null / an empty dict (all falsy in Python), and
`some v` when it is a dict whose `"value"` is `v` (`v = none` for a JSON
null value). -/
structure Period where
  isDaytime : Bool := false
  startTime : Option Text := none
  temperature : Option Int := none
  temperatureUnit : Option Text := none
  probabilityOfPrecipitation : Option (Option Int) := none
  shortForecast : Option Text := none
  name : Option Text := none
  detailedForecast : Option Text := none
deriving DecidableEq

/-- The alerts payload: `{"features": [...]}`. -/
structure AlertsData where
  features : Option (List Alert) := none

/-- `forecast_data["properties"]`. -/
structure ForecastProps where
  periods : Option (List Period) := none

/-- The forecast payload. -/
structure ForecastData where
  properties : Option ForecastProps := none

/-- `point_data["properties"]`. -/
structure PointProps where
  forecast : Option Text := none

/-- The point-lookup payload. -/
structure PointData where
  properties : Option PointProps := none

/-- `alerts = (alerts_data or {}).get("features", [])`. -/
def alertsOf : Option AlertsData → List Alert
  | none => []
  | some d => d.features.getD []

/-- `periods = forecast_data["properties"].get("periods", [])` guarded by
`if forecast_data and "properties" in forecast_data`. -/
def periodsOf : Option ForecastData → List Period
  | none => []
  | some fd =>
    match fd.properties with
    | none => []
    | some pr => pr.periods.getD []

/-- The conditional third fetch: `fc_url = point_data["properties"].get("forecast")`,
fetched only when `point_data`, its `"properties"` key and `fc_url` are all
truthy. -/
def forecastDataOf (point_data : Option PointData)
    (fetchForecast : Text → Option ForecastData) : Option ForecastData :=
  match point_data with
  | none => none
  | some pd =>
    match pd.properties with
    | none => none
    | some props =>
      match props.forecast with
      | none => none
      | some url => if url.isEmpty then none else fetchForecast url

/-! ### Classifier -/

/-- `(a["properties"].get("event","") or "").lower()`. -/
def lowerEvent (a : Alert) : Text :=
  (a.properties.event.getD []).map Char.toLower

/-- Keyword set for the flood filter in `main`. -/
def floodKeywords : List Text := ["flood".data, "flash".data, "inunda".data]

/-- Keyword set for the marine filter in `main`. -/
def marineKeywords : List Text :=
  ["marine".data, "small craft".data, "surf".data, "beach".data, "rip".data]

/-- Membership in `flood_alerts`: `any(k in event.lower() for k in [...])`. -/
def isFlood (a : Alert) : Bool :=
  floodKeywords.any (fun k => occursIn k (lowerEvent a))

/-- Membership in `marine_alerts`. -/
def isMarine (a : Alert) : Bool :=
  marineKeywords.any (fun k => occursIn k (lowerEvent a))

/-- `a["properties"].get("severity") == s`. -/
def sevIs (s : Text) (a : Alert) : Bool :=
  a.properties.severity = some s

/-- The `riesgo, r_color, r_icon` chain of `main` (lines 210–219):
level string, colour, icon. -/
def riesgoOf (alerts : List Alert) : Text × Text × Text :=
  let flood_alerts := alerts.filter isFlood
  if !flood_alerts.isEmpty && flood_alerts.any (sevIs "Extreme".data) then
    ("EXTREMO".data, DANGER, "🔴".data)
  else if !flood_alerts.isEmpty && flood_alerts.any (sevIs "Severe".data) then
    ("ALTO".data, WARN, "🟠".data)
  else if !flood_alerts.isEmpty then
    ("MODERADO".data, GOLD, "🟡".data)
  else if !alerts.isEmpty then
    ("BAJO-MOD".data, CYAN, "🟡".data)
  else
    ("BAJO".data, SAFE, "🟢".data)

/-- `today = next((p for p in periods if p.get("isDaytime")), None)`. -/
def todayOf (periods : List Period) : Option Period :=
  periods.find? (fun p => p.isDaytime)

/-- `lluvia_pct = (today or {}).get("probabilityOfPrecipitation", {})`;
`lluvia_val = lluvia_pct.get("value") if lluvia_pct else None`. -/
def lluviaValOf (periods : List Period) : Option Int :=
  match todayOf periods with
  | none => none
  | some p =>
    match p.probabilityOfPrecipitation with
    | none => none
    | some v => v

/-- Python truthiness of `lluvia_val` (None and 0 are falsy). -/
def truthyVal : Option Int → Bool
  | none => false
  | some n => n != 0

/-- `lluvia_str = f"{lluvia_val}%" if lluvia_val is not None else "—"`. -/
def lluviaStr (v : Option Int) : Text :=
  match v with
  | none => "—".data
  | some n =>
    (if n < 0 then '-' :: Nat.toDigits 10 n.natAbs else Nat.toDigits 10 n.toNat)
      ++ "%".data

/-- The `l_color, l_icon` chain (lines 225–228), with Python's
short-circuit `lluvia_val and lluvia_val >= t` conditions. -/
def lluviaLevel (v : Option Int) : Text × Text :=
  if truthyVal v && decide (v.getD 0 ≥ 80) then (DANGER, "🔴".data)
  else if truthyVal v && decide (v.getD 0 ≥ 60) then (WARN, "🟠".data)
  else if truthyVal v && decide (v.getD 0 ≥ 40) then (GOLD, "🟡".data)
  else (SAFE, "🟢".data)

/-! ### Expiry column of the alerts table

`datetime.strptime(p["expires"][:19], "%Y-%m-%dT%H:%M:%S") + timedelta(hours=-4)`
formatted as `"%d/%m %I:%M %p"`, falling back to `expires[:10]` when the
`try` block raises. -/

/-- A naive `datetime` value. -/
structure PyDateTime where
  y : Nat
  m : Nat
  d : Nat
  hh : Nat
  mi : Nat
  ss : Nat
deriving DecidableEq

/-- Gregorian leap year, as in Python's `calendar`/`datetime`. -/
def isLeap (y : Nat) : Bool :=
  (y % 4 = 0 && y % 100 != 0) || y % 400 = 0

/-- Days in a month. -/
def daysInMonth (y m : Nat) : Nat :=
  if m = 2 then (if isLeap y then 29 else 28)
  else if m = 4 ∨ m = 6 ∨ m = 9 ∨ m = 11 then 30
  else 31

/-- `%Y`: exactly four digits. -/
def parseYear : Text → Option (Nat × Text)
  | a :: b :: c :: d :: rest =>
    if a.isDigit ∧ b.isDigit ∧ c.isDigit ∧ d.isDigit then
      some ((((a.toNat - 48) * 10 + (b.toNat - 48)) * 10 + (c.toNat - 48)) * 10
              + (d.toNat - 48), rest)
    else none
  | _ => none

/-- `%m`: the strptime alternation `1[0-2]|0[1-9]|[1-9]`. -/
def parseMonth : Text → Option (Nat × Text)
  | '1' :: c :: rest =>
    if '0' ≤ c ∧ c ≤ '2' then some (10 + (c.toNat - 48), rest)
    else some (1, c :: rest)
  | c1 :: c2 :: rest =>
    if c1 = '0' then
      (if '1' ≤ c2 ∧ c2 ≤ '9' then some (c2.toNat - 48, rest) else none)
    else if '1' ≤ c1 ∧ c1 ≤ '9' then some (c1.toNat - 48, c2 :: rest)
    else none
  | [c] => if '1' ≤ c ∧ c ≤ '9' then some (c.toNat - 48, []) else none
  | [] => none

/-- `%d`: the strptime alternation `3[01]|[12]\d|0[1-9]|[1-9]`. -/
def parseDay : Text → Option (Nat × Text)
  | '3' :: c :: rest =>
    if c = '0' ∨ c = '1' then some (30 + (c.toNat - 48), rest)
    else some (3, c :: rest)
  | c1 :: c2 :: rest =>
    if (c1 = '1' ∨ c1 = '2') ∧ c2.isDigit then
      some ((c1.toNat - 48) * 10 + (c2.toNat - 48), rest)
    else if c1 = '0' then
      (if '1' ≤ c2 ∧ c2 ≤ '9' then some (c2.toNat - 48, rest) else none)
    else if '1' ≤ c1 ∧ c1 ≤ '9' then some (c1.toNat - 48, c2 :: rest)
    else none
  | [c] => if '1' ≤ c ∧ c ≤ '9' then some (c.toNat - 48, []) else none
  | [] => none

/-- `%H`: the strptime alternation `2[0-3]|[0-1]\d|\d`. -/
def parseHour : Text → Option (Nat × Text)
  | '2' :: c :: rest =>
    if '0' ≤ c ∧ c ≤ '3' then some (20 + (c.toNat - 48), rest)
    else some (2, c :: rest)
  | c1 :: c2 :: rest =>
    if (c1 = '0' ∨ c1 = '1') ∧ c2.isDigit then
      some ((c1.toNat - 48) * 10 + (c2.toNat - 48), rest)
    else if c1.isDigit then some (c1.toNat - 48, c2 :: rest)
    else none
  | [c] => if c.isDigit then some (c.toNat - 48, []) else none
  | [] => none

/-- `%M`: the strptime alternation `[0-5]\d|\d`. -/
def parseMinute : Text → Option (Nat × Text)
  | c1 :: c2 :: rest =>
    if ('0' ≤ c1 ∧ c1 ≤ '5') ∧ c2.isDigit then
      some ((c1.toNat - 48) * 10 + (c2.toNat - 48), rest)
    else if c1.isDigit then some (c1.toNat - 48, c2 :: rest)
    else none
  | [c] => if c.isDigit then some (c.toNat - 48, []) else none
  | [] => none

/-- `%S`: the strptime alternation `6[01]|[0-5]\d|\d` (leap seconds are
matched, then rejected by the `datetime` constructor). -/
def parseSecond : Text → Option (Nat × Text)
  | '6' :: c :: rest =>
    if c = '0' ∨ c = '1' then some (60 + (c.toNat - 48), rest)
    else some (6, c :: rest)
  | c1 :: c2 :: rest =>
    if ('0' ≤ c1 ∧ c1 ≤ '5') ∧ c2.isDigit then
      some ((c1.toNat - 48) * 10 + (c2.toNat - 48), rest)
    else if c1.isDigit then some (c1.toNat - 48, c2 :: rest)
    else none
  | [c] => if c.isDigit then some (c.toNat - 48, []) else none
  | [] => none

/-- Consume one literal character. -/
def expectChar (c : Char) : Text → Option Text
  | x :: rest => if x = c then some rest else none
  | [] => none

/-- `datetime.strptime(s, "%Y-%m-%dT%H:%M:%S")`, including the range
validation performed by the `datetime` constructor (`none` = ValueError). -/
def strptime19 (s : Text) : Option PyDateTime := do
  let (y, s) ← parseYear s
  let s ← expectChar '-' s
  let (m, s) ← parseMonth s
  let s ← expectChar '-' s
  let (d, s) ← parseDay s
  let s ← expectChar 'T' s
  let (hh, s) ← parseHour s
  let s ← expectChar ':' s
  let (mi, s) ← parseMinute s
  let s ← expectChar ':' s
  let (ss, s) ← parseSecond s
  if s.isEmpty ∧ 1 ≤ y ∧ d ≤ daysInMonth y m ∧ ss ≤ 59 then
    some ⟨y, m, d, hh, mi, ss⟩
  else none

/-- `dt + timedelta(hours=-4)`; `none` models the OverflowError raised
when the result would fall before `datetime.min` (year 1). -/
def subHours4 (t : PyDateTime) : Option PyDateTime :=
  if 4 ≤ t.hh then some { t with hh := t.hh - 4 }
  else if 1 < t.d then some { t with d := t.d - 1, hh := t.hh + 20 }
  else if 1 < t.m then
    some { t with m := t.m - 1, d := daysInMonth t.y (t.m - 1), hh := t.hh + 20 }
  else if 1 < t.y then
    some { y := t.y - 1, m := 12, d := 31, hh := t.hh + 20, mi := t.mi, ss := t.ss }
  else none

/-- Zero-padded two-digit decimal. -/
def pad2 (n : Nat) : Text :=
  if n < 10 then ['0', Nat.digitChar n]
  else [Nat.digitChar (n / 10), Nat.digitChar (n % 10)]

/-- `ed.strftime("%d/%m %I:%M %p")`. -/
def fmtExp (t : PyDateTime) : Text :=
  let h12 := if t.hh % 12 = 0 then 12 else t.hh % 12
  pad2 t.d ++ "/".data ++ pad2 t.m ++ " ".data ++ pad2 h12 ++ ":".data
    ++ pad2 t.mi ++ " ".data ++ (if t.hh < 12 then "AM".data else "PM".data)

/-- The `EXPIRA` column of one alerts-table row (lines 260–266). -/
def expCol (expires : Option Text) : Text :=
  match expires with
  | none => "—".data
  | some e =>
    if e.isEmpty then "—".data
    else
      match strptime19 (e.take 19) with
      | none => e.take 10
      | some dt =>
        match subHours4 dt with
        | none => e.take 10
        | some ed => fmtExp ed

/-! ### Alerts table and critical-alert details -/

/-- Python `s.split(";")` (always returns at least one piece). -/
def splitOnSemi : Text → List Text
  | [] => [[]]
  | c :: cs =>
    if c = ';' then [] :: splitOnSemi cs
    else
      match splitOnSemi cs with
      | [] => [[c]]
      | t :: ts => (c :: t) :: ts

/-- One row `[ev, sev, area, exp]` of the alerts table (lines 256–267):
event truncated to 38 chars, localized severity, first `;`-piece of the
area truncated to 32 chars, formatted expiry. -/
def mkAlertRow (a : Alert) : Text × Text × Text × Text :=
  let p := a.properties
  ((p.event.getD []).take 38,
   sev_es (p.severity.getD []),
   ((splitOnSemi (p.areaDesc.getD [])).headD []).take 32,
   expCol p.expires)

/-- The data rows of the alerts table: `for a in alerts[:14]` (line 255). -/
def alertTableRows (alerts : List Alert) : List (Text × Text × Text × Text) :=
  (alerts.take 14).map mkAlertRow

/-- `a["properties"].get("severity") in ["Extreme","Severe"]`. -/
def isCritical (a : Alert) : Bool :=
  sevIs "Extreme".data a || sevIs "Severe".data a

/-- `criticas = [a for a in alerts if ...]` (line 280). -/
def criticas (alerts : List Alert) : List Alert :=
  alerts.filter isCritical

/-- The alerts whose detail blocks are rendered: `for a in criticas[:4]`
(line 283). -/
def criticasDetail (alerts : List Alert) : List Alert :=
  (criticas alerts).take 4

/-- The truncated description of one critical-alert detail block
(lines 286–287): `desc = description or headline or ""`, then
`desc[:400] + ("..." if len(desc) > 400 else "")`. -/
def criticalDescOf (a : Alert) : Text :=
  let d1 := a.properties.description.getD []
  let d2 := if d1.isEmpty then a.properties.headline.getD [] else d1
  d2.take 400 ++ (if 400 < d2.length then "...".data else [])

/-! ### The summary record and the writer tail -/

/-- The `info` dict written to `reports/reporte_info.json`
(lines 444–454). -/
structure Info where
  fecha : Text
  hora : Text
  archivo : Text
  alertas_total : Nat
  alertas_inundacion : Nat
  alertas_marinas : Nat
  lluvia_hoy_pct : Option Int
  riesgo : Text
  generado_utc : Text
deriving DecidableEq

/-- Builds the summary record from the two fetched payloads, exactly as
`main` derives `alerts`, `periods`, `flood_alerts`, `marine_alerts`,
`lluvia_val` and `riesgo`. -/
def mkInfo (fecha hora file_date generado_utc : Text)
    (alerts_data : Option AlertsData) (forecast_data : Option ForecastData) :
    Info :=
  let alerts := alertsOf alerts_data
  let periods := periodsOf forecast_data
  { fecha := fecha
    hora := hora
    archivo := "Reporte_Meteorologico_Arecibo_".data ++ file_date ++ ".pdf".data
    alertas_total := alerts.length
    alertas_inundacion := (alerts.filter isFlood).length
    alertas_marinas := (alerts.filter isMarine).length
    lluvia_hoy_pct := lluviaValOf periods
    riesgo := (riesgoOf alerts).1
    generado_utc := generado_utc }

/-- The dated PDF path `OUTPUT`. -/
def OUTPUT (file_date : Text) : Text :=
  "reports/Reporte_Meteorologico_Arecibo_".data ++ file_date ++ ".pdf".data

/-- The fixed "latest" copy path `LATEST`. -/
def LATEST : Text := "reports/reporte_mas_reciente.pdf".data

/-- The fixed summary path. -/
def INFO_PATH : Text := "reports/reporte_info.json".data

/-- The three file-producing statements at the end of `main`
(lines 435, 440, 455–456), in program order. -/
inductive TailStmt where
  | buildPdf
  | copyLatest
  | writeInfo
deriving DecidableEq

/-- The file each statement writes. -/
def stmtFile (file_date : Text) : TailStmt → Text
  | .buildPdf => OUTPUT file_date
  | .copyLatest => LATEST
  | .writeInfo => INFO_PATH

/-- Whether the statement raises: only `doc.build` can fail
(`buildFails` says whether it does); the subsequent copy and JSON dump
are reached only if it did not. -/
def stmtFails (buildFails : Bool) : TailStmt → Bool
  | .buildPdf => buildFails
  | .copyLatest => false
  | .writeInfo => false

/-- Executes statements in order; an unhandled exception stops the run
(there is no `try` around the tail of `main`): returns the files written
and whether the run completed. -/
def runStmts (buildFails : Bool) (file_date : Text) :
    List TailStmt → List Text × Bool
  | [] => ([], true)
  | s :: rest =>
    if stmtFails buildFails s then ([], false)
    else
      let r := runStmts buildFails file_date rest
      (stmtFile file_date s :: r.1, r.2)

/-- The tail of `main`: build the PDF, copy it to `LATEST`, write the
summary JSON. -/
def mainTail (buildFails : Bool) (file_date : Text) : List Text × Bool :=
  runStmts buildFails file_date [.buildPdf, .copyLatest, .writeInfo]

/-! ### Spec-side definition for the flood-risk claim -/

/-- The flood-risk level exactly as the specification words it:
EXTREME if some flood alert is Extreme; else HIGH if some is Severe;
else MODERATE if the flood set is non-empty; else LOW-MODERATE if any
alert exists; else LOW.  (To be compared with `riesgoOf`, which is
translated from the code.) -/
def riesgoSpecC1 (alerts : List Alert) : Text :=
  let flood := alerts.filter isFlood
  if flood.any (sevIs "Extreme".data) then "EXTREMO".data
  else if flood.any (sevIs "Severe".data) then "ALTO".data
  else if !flood.isEmpty then "MODERADO".data
  else if !alerts.isEmpty then "BAJO-MOD".data
  else "BAJO".data

/-! ### Helper lemmas -/

/-- A list on which `any` holds is not empty. -/
lemma any_imp_not_isEmpty {α : Type} (l : List α) (p : α → Bool)
    (h : l.any p = true) : l.isEmpty = false := by
  cases l with
  | nil => simp at h
  | cons a t => rfl

/-- `occursIn` decides contiguous-sublist membership. -/
lemma occursIn_iff_infix (pat s : Text) : occursIn pat s = true ↔ pat <:+: s := by
  induction s with
  | nil =>
    simp [occursIn, List.isEmpty_iff, List.infix_nil]
  | cons c cs ih =>
    simp [occursIn, ih, List.infix_cons_iff, List.isPrefixOf_iff_prefix]

/-- A pattern that does not occur in `s` is not replaced:
`replaceAllAux` leaves `s` unchanged. -/
lemma replaceAllAux_of_not_occurs (pat rep : Text) :
    ∀ (fuel : Nat) (s : Text), occursIn pat s = false →
      replaceAllAux pat rep fuel s = s := by
  intro fuel
  induction fuel with
  | zero => intro s _; rfl
  | succ n ih =>
    intro s h
    cases s with
    | nil => rfl
    | cons c cs =>
      simp only [occursIn, Bool.or_eq_false_iff] at h
      simp only [replaceAllAux, h.1, Bool.false_eq_true, if_false]
      rw [ih cs h.2]

/-- `replaceAll` leaves a string without the pattern unchanged. -/
lemma replaceAll_of_not_occurs (pat rep s : Text)
    (h : occursIn pat s = false) : replaceAll pat rep s = s :=
  replaceAllAux_of_not_occurs pat rep s.length s h

/-- Folding the translation table over a text containing none of its
source phrases is the identity. -/
lemma foldl_replace_of_no_key :
    ∀ (L : List (Text × Text)) (t : Text),
      (∀ p ∈ L, occursIn p.1 t = false) →
      L.foldl (fun t p => replaceAll p.1 p.2 t) t = t := by
  intro L
  induction L with
  | nil => intro t _; rfl
  | cons q rest ih =>
    intro t h
    have hq : occursIn q.1 t = false := h q (by simp)
    simp only [List.foldl_cons, replaceAll_of_not_occurs q.1 q.2 t hq]
    exact ih t (fun p hp => h p (by simp [hp]))

/-- `find?` over a skipped prefix finds the first satisfying element. -/
lemma find?_append_first {α : Type} (d : α → Bool) :
    ∀ (pre : List α) (p : α) (post : List α),
      (∀ q ∈ pre, d q = false) → d p = true →
      (pre ++ p :: post).find? d = some p := by
  intro pre
  induction pre with
  | nil =>
    intro p post _ hp
    simpa using List.find?_cons_of_pos post hp
  | cons a t ih =>
    intro p post hall hp
    have ha : d a = false := hall a (by simp)
    rw [List.cons_append, List.find?_cons_of_neg _ (by simp [ha])]
    exact ih p post (fun q hq => hall q (by simp [hq])) hp

/-! ## The claims -/

/-- C1: for every alert list, the flood-risk level is computed by strict
first-match priority — EXTREMO if some flood alert has severity Extreme,
else ALTO if some has Severe, else MODERADO if the flood set is
non-empty, else BAJO-MOD if any alert exists, else BAJO. -/
theorem C1_flood_risk_priority (alerts : List Alert) :
    (riesgoOf alerts).1 = riesgoSpecC1 alerts := by
  unfold riesgoOf riesgoSpecC1
  cases hM : (alerts.filter isFlood).isEmpty with
  | true =>
    rw [List.isEmpty_iff] at hM
    rw [hM]
    simp only [List.any_nil, List.isEmpty_nil, Bool.not_true, Bool.false_and,
      Bool.false_eq_true, if_false]
    cases hA : alerts.isEmpty <;>
      simp only [hA, Bool.not_true, Bool.not_false, if_true, if_false,
        Bool.false_eq_true, Bool.true_eq_false, ite_true, ite_false]
  | false =>
    simp only [hM, Bool.not_false, Bool.true_and]
    cases hE : (alerts.filter isFlood).any (sevIs "Extreme".data) <;>
      cases hS : (alerts.filter isFlood).any (sevIs "Severe".data) <;>
        simp only [hE, hS, Bool.false_eq_true, Bool.true_eq_false, if_true,
          if_false, ite_true, ite_false]

/-- C3: flood membership holds exactly when the lowercased event name
contains one of {"flood","flash","inunda"}; marine membership exactly
when it contains one of {"marine","small craft","surf","beach","rip"};
and classification is determined by the lowercased event name, so alerts
differing only in letter case classify identically. -/
theorem C3_keyword_membership (a : Alert) :
    (isFlood a = true ↔ ∃ k ∈ floodKeywords, k <:+: lowerEvent a) ∧
    (isMarine a = true ↔ ∃ k ∈ marineKeywords, k <:+: lowerEvent a) ∧
    (∀ b : Alert, lowerEvent a = lowerEvent b →
      isFlood a = isFlood b ∧ isMarine a = isMarine b) := by
  refine ⟨?_, ?_, ?_⟩
  · simp [isFlood, List.any_eq_true, occursIn_iff_infix]
  · simp [isMarine, List.any_eq_true, occursIn_iff_infix]
  · intro b hab
    constructor
    · simp [isFlood, hab]
    · simp [isMarine, hab]

/-! ### Concrete values used by the witnesses -/

/-- An alert whose event is "FLASH FLOOD WARNING". -/
def flashUpper : Alert := ⟨{ event := some "FLASH FLOOD WARNING".data }⟩

/-- An alert whose event is "flash flood warning". -/
def flashLower : Alert := ⟨{ event := some "flash flood warning".data }⟩

/-- A night-time forecast period. -/
def nightPeriod : Period := { isDaytime := false }

/-- A daytime period with precipitation probability 80. -/
def dayPeriod80 : Period :=
  { isDaytime := true, probabilityOfPrecipitation := some (some 80) }

/-- Fifteen identical alerts, more than the table cap of 14. -/
def demoAlerts : List Alert := List.replicate 15 flashUpper

/-- C3 witness: the two alerts differing only in case classify
identically, and both land in the flood set. -/
theorem C3_keyword_membership_witness :
    isFlood flashUpper = isFlood flashLower ∧
    isMarine flashUpper = isMarine flashLower ∧
    isFlood flashUpper = true :=
  ⟨((C3_keyword_membership flashUpper).2.2 flashLower (by decide)).1,
   ((C3_keyword_membership flashUpper).2.2 flashLower (by decide)).2,
   by decide⟩

/-- C2: the rain value is read from the first daytime period, and the
bucketing is boundary-exact — 80 is HIGH (DANGER/red), 79 MODERATE-HIGH
(WARN/orange), 59 MODERATE (GOLD/yellow), 39 LOW (SAFE/green); an absent
value is LOW and displayed as the em-dash, distinct from a true zero
displayed as "0%". -/
theorem C2_rain_bucketing (pre : List Period) (p : Period) (post : List Period)
    (hpre : ∀ q ∈ pre, q.isDaytime = false) (hp : p.isDaytime = true) :
    (todayOf (pre ++ p :: post) = some p ∧
      lluviaValOf (pre ++ p :: post) = p.probabilityOfPrecipitation.getD none) ∧
    lluviaLevel (some 80) = (DANGER, "🔴".data) ∧
    lluviaLevel (some 79) = (WARN, "🟠".data) ∧
    lluviaLevel (some 59) = (GOLD, "🟡".data) ∧
    lluviaLevel (some 39) = (SAFE, "🟢".data) ∧
    (lluviaLevel none = (SAFE, "🟢".data) ∧ lluviaStr none = "—".data) ∧
    (lluviaLevel (some 0) = (SAFE, "🟢".data) ∧ lluviaStr (some 0) = "0%".data) ∧
    lluviaStr none ≠ lluviaStr (some 0) := by
  have htoday : todayOf (pre ++ p :: post) = some p :=
    find?_append_first _ pre p post hpre hp
  refine ⟨⟨htoday, ?_⟩, by decide, by decide, by decide, by decide,
    ⟨by decide, by decide⟩, ⟨by decide, by decide⟩, by decide⟩
  unfold lluviaValOf
  rw [htoday]
  cases hP : p.probabilityOfPrecipitation with
  | none => simp [hP]
  | some v => simp [hP]

/-- C2 witness: on a concrete list whose first daytime period reports 80,
the value 80 is selected. -/
theorem C2_rain_bucketing_witness :
    todayOf [nightPeriod, dayPeriod80] = some dayPeriod80 ∧
    lluviaValOf [nightPeriod, dayPeriod80] = some 80 :=
  ⟨(C2_rain_bucketing [nightPeriod] dayPeriod80 [] (by decide) (by rfl)).1.1,
   (C2_rain_bucketing [nightPeriod] dayPeriod80 [] (by decide) (by rfl)).1.2⟩

/-- C4 counterexample: `sev_es` does not send every unknown severity to a
single neutral default — two distinct off-enum inputs yield two distinct
(input-dependent) outputs. -/
theorem C4_counterexample :
    sev_es "Unknown".data = "Unknown".data ∧
    sev_es "Otro".data = "Otro".data ∧
    sev_es "Unknown".data ≠ sev_es "Otro".data :=
  ⟨by decide, by decide, by decide⟩

/-- C4 amended: both mappings are total over the four severities;
`sev_color` maps every input outside the enum to the single default
MUTED, while `sev_es` maps an unknown input to the input itself when it
is non-empty and to the em-dash only when it is empty. -/
theorem C4_amended_severity_defaults (sev : Text)
    (h : sev ∉ ["Extreme".data, "Severe".data, "Moderate".data, "Minor".data]) :
    (sev_color "Extreme".data = DANGER ∧ sev_color "Severe".data = WARN ∧
      sev_color "Moderate".data = GOLD ∧ sev_color "Minor".data = SAFE) ∧
    (sev_es "Extreme".data = "EXTREMO".data ∧ sev_es "Severe".data = "SEVERO".data ∧
      sev_es "Moderate".data = "MODERADO".data ∧ sev_es "Minor".data = "MENOR".data) ∧
    sev_color sev = MUTED ∧
    sev_es sev = (if sev.isEmpty then "—".data else sev) := by
  simp only [List.mem_cons, List.not_mem_nil, or_false, not_or] at h
  obtain ⟨h1, h2, h3, h4⟩ := h
  refine ⟨⟨by decide, by decide, by decide, by decide⟩,
    ⟨by decide, by decide, by decide, by decide⟩, ?_, ?_⟩
  · unfold sev_color
    rw [if_neg h1, if_neg h2, if_neg h3, if_neg h4]
  · unfold sev_es
    rw [if_neg h1, if_neg h2, if_neg h3, if_neg h4]

/-- C4 witness at the concrete off-enum input "Unknown". -/
theorem C4_amended_severity_defaults_witness :
    (sev_color "Extreme".data = DANGER ∧ sev_color "Severe".data = WARN ∧
      sev_color "Moderate".data = GOLD ∧ sev_color "Minor".data = SAFE) ∧
    (sev_es "Extreme".data = "EXTREMO".data ∧ sev_es "Severe".data = "SEVERO".data ∧
      sev_es "Moderate".data = "MODERADO".data ∧ sev_es "Minor".data = "MENOR".data) ∧
    sev_color "Unknown".data = MUTED ∧
    sev_es "Unknown".data = (if ("Unknown".data : Text).isEmpty then "—".data
      else "Unknown".data) :=
  C4_amended_severity_defaults "Unknown".data (by decide)

/-- C5: when the PDF build fails, the run aborts — no file at all is
written (in particular neither the "latest" copy nor the summary), and
the run does not complete. -/
theorem C5_build_failure_aborts (file_date : Text) :
    mainTail true file_date = ([], false) ∧
    LATEST ∉ (mainTail true file_date).1 ∧
    INFO_PATH ∉ (mainTail true file_date).1 :=
  ⟨rfl, by simp [mainTail, runStmts, stmtFails], by simp [mainTail, runStmts, stmtFails]⟩

/-- C6: `fetch_json` either returns the parsed value with no warning, or
on any raised fetch/decode exception returns the `None` sentinel with
exactly one warning line — it never propagates the exception. -/
theorem C6_fetch_never_raises (α : Type) (url : Text) (r : Except FetchError α) :
    (∀ j, r = Except.ok j → fetch_json α url r = (some j, [])) ∧
    (∀ e, r = Except.error e →
      (fetch_json α url r).1 = none ∧ (fetch_json α url r).2.length = 1) := by
  constructor
  · intro j hj
    subst hj
    rfl
  · intro e he
    subst he
    exact ⟨rfl, rfl⟩

/-- C6 witness at a concrete timeout failure. -/
theorem C6_fetch_never_raises_witness :
    (fetch_json Nat "u".data (Except.error FetchError.timeout)).1 = none ∧
    (fetch_json Nat "u".data (Except.error FetchError.timeout)).2.length = 1 :=
  (C6_fetch_never_raises Nat "u".data (Except.error FetchError.timeout)).2
    FetchError.timeout rfl

/-- C7: with both fetches failed (no alerts payload, no forecast
payload) the summary record reports zero total/flood/marine alerts, a
null rain percentage and risk level BAJO, and the writer tail still
completes, producing the dated PDF, the "latest" copy and the summary
file. -/
theorem C7_all_fetches_fail (fecha hora file_date generado : Text) :
    (mkInfo fecha hora file_date generado none none).alertas_total = 0 ∧
    (mkInfo fecha hora file_date generado none none).alertas_inundacion = 0 ∧
    (mkInfo fecha hora file_date generado none none).alertas_marinas = 0 ∧
    (mkInfo fecha hora file_date generado none none).lluvia_hoy_pct = none ∧
    (mkInfo fecha hora file_date generado none none).riesgo = "BAJO".data ∧
    mainTail false file_date = ([OUTPUT file_date, LATEST, INFO_PATH], true) :=
  ⟨rfl, rfl, rfl, rfl, rfl, rfl⟩

/-- C8 counterexample: `traducir` is not idempotent — on
"Tropical Storm Storm" the first pass yields "Tormenta Tropical Storm",
which still contains the source phrase "Tropical Storm", so a second
pass changes it again. -/
theorem C8_counterexample :
    traducir (traducir "Tropical Storm Storm".data) ≠
      traducir "Tropical Storm Storm".data := by
  decide

/-- C8 amended: empty input returns the empty string, and `traducir` is
the identity (hence idempotent) on untranslatable text — text containing
none of the table's source phrases; idempotence does not hold for every
input. -/
theorem C8_amended_translation (t : Text)
    (h : ∀ p ∈ TRADUCCIONES, occursIn p.1 t = false) :
    traducir [] = [] ∧ traducir t = t ∧ traducir (traducir t) = traducir t := by
  have ht : traducir t = t := by
    unfold traducir
    cases hE : t.isEmpty with
    | true =>
      rw [List.isEmpty_iff] at hE
      subst hE
      rfl
    | false =>
      simp only [hE, Bool.false_eq_true, if_false]
      exact foldl_replace_of_no_key TRADUCCIONES t h
  refine ⟨rfl, ht, ?_⟩
  rw [ht]
  exact ht

/-- C8 witness: "Soleado" contains no source phrase and is fixed by
`traducir`. -/
theorem C8_amended_translation_witness :
    traducir "Soleado".data = "Soleado".data :=
  (C8_amended_translation "Soleado".data (by decide)).2.1

/-- C9: the compound phrase wins — "Chance Thunderstorms" translates to
"Posibilidad de Tormentas", not to the text produced by replacing only
the suffix "Thunderstorms" first. -/
theorem C9_compound_phrase_order :
    traducir "Chance Thunderstorms".data = "Posibilidad de Tormentas".data ∧
    traducir "Chance Thunderstorms".data ≠
      replaceAll "Thunderstorms".data "Tormentas Eléctricas".data
        "Chance Thunderstorms".data :=
  ⟨by decide, by decide⟩

/-- C10: with more than 14 alerts, the alerts table renders rows for
exactly the first 14, the critical-detail section renders at most the
first 4 critical alerts (a prefix of the critical sublist), while the
summary record still counts the full list. -/
theorem C10_table_caps (alerts : List Alert) (fd : Option ForecastData)
    (fecha hora file_date generado : Text) (h : 14 < alerts.length) :
    (alertTableRows alerts).length = 14 ∧
    alertTableRows alerts = (alerts.take 14).map mkAlertRow ∧
    (criticasDetail alerts).length ≤ 4 ∧
    criticasDetail alerts = (criticas alerts).take 4 ∧
    criticasDetail alerts <+: criticas alerts ∧
    (mkInfo fecha hora file_date generado (some ⟨some alerts⟩) fd).alertas_total
      = alerts.length ∧
    (mkInfo fecha hora file_date generado (some ⟨some alerts⟩) fd).alertas_inundacion
      = (alerts.filter isFlood).length ∧
    (mkInfo fecha hora file_date generado (some ⟨some alerts⟩) fd).alertas_marinas
      = (alerts.filter isMarine).length := by
  refine ⟨?_, rfl, ?_, rfl, ?_, rfl, rfl, rfl⟩
  · rw [alertTableRows, List.length_map, List.length_take]
    exact Nat.min_eq_left (Nat.le_of_lt h)
  · rw [criticasDetail, List.length_take]
    exact Nat.min_le_left _ _
  · exact List.take_prefix _ _

/-- C10 witness on a concrete list of 15 alerts. -/
theorem C10_table_caps_witness :
    14 < demoAlerts.length ∧ (alertTableRows demoAlerts).length = 14 :=
  ⟨by decide, (C10_table_caps demoAlerts none [] [] [] [] (by decide)).1⟩

end Arecibo
